import Mathlib

deriving instance DecidableEq for Except

/- Shallow embedding of the QR-feedback service (app/main.py, app/db.py,
   app/models.py): the storage model, the data-access operations, and the
   admin session authentication, together with proofs of the specified
   properties.  Python semantics (str.strip, str.title, sqlite3 defaults,
   itsdangerous signing) are embedded explicitly below. -/

/-- Character class stripped by Python `str.strip()` with no argument
    (ASCII whitespace; the embedding restricts to the ASCII range). -/
def isPySpace (c : Char) : Bool :=
  c = ' ' || c = '\t' || c = '\n' || c = '\r' || c = '\x0b' || c = '\x0c'

/-- Python `s.strip()`: removes whitespace from both ends. -/
def pyStrip (s : String) : String :=
  String.mk (((s.toList.dropWhile isPySpace).reverse.dropWhile isPySpace).reverse)

/-- Python `s.strip() or None` (app/main.py lines 100-101): the empty
    string is falsy, so an empty or all-whitespace field becomes None. -/
def stripOrNone (s : String) : Option String :=
  let t := pyStrip s
  if t = "" then none else some t

/-- CPython `str.title` scanner: a word is a maximal run of letters; the
    first letter of each run is uppercased, later letters lowercased,
    non-letters are kept and end the current run. -/
def pyTitleGo : Bool → List Char → List Char
  | _, [] => []
  | prevAlpha, c :: cs =>
    if c.isAlpha then
      (if prevAlpha then c.toLower else c.toUpper) :: pyTitleGo true cs
    else
      c :: pyTitleGo false cs

/-- Python `s.title()`. -/
def pyTitle (s : String) : String :=
  String.mk (pyTitleGo false s.toList)

/-- Display name derived in get_or_create_business (app/main.py line 68):
    `slug.replace("-", " ").title()`; the pattern is the single character
    `-`, so replace is a character map. -/
def deriveName (slug : String) : String :=
  pyTitle (String.mk (slug.toList.map (fun c => if c = '-' then ' ' else c)))

/-- Row of the businesses table (app/db.py lines 19-26). `created_at` is a
    monotone clock value standing in for the datetime text. -/
structure Business where
  id : Nat
  slug : String
  name : String
  created_at : Nat
deriving Repr, DecidableEq

/-- Row of the reviews table (app/db.py lines 28-40); `seen` and `flagged`
    are stored as the integers 0/1 exactly as the code writes them. -/
structure Review where
  id : Nat
  business_id : Nat
  rating : Int
  comment : Option String
  contact_email : Option String
  created_at : Nat
  seen : Nat
  flagged : Nat
deriving Repr, DecidableEq

/-- The sqlite database file: both tables, the AUTOINCREMENT counters and
    the current clock. Lists are in rowid (insertion) order. -/
structure DB where
  businesses : List Business
  reviews : List Review
  nextBusinessId : Nat
  nextReviewId : Nat
  now : Nat
deriving Repr, DecidableEq

def emptyDB : DB := ⟨[], [], 1, 1, 0⟩

inductive SqlError
  | uniqueViolation
  | checkViolation
  | fkViolation
deriving Repr, DecidableEq

/-- sqlite3 default: foreign-key enforcement is OFF unless the connection
    issues `PRAGMA foreign_keys = ON`; get_conn (app/db.py lines 9-13) only
    sets the row factory and never issues the pragma. -/
def connForeignKeysOn : Bool := false

/-- Raw INSERT INTO businesses: the UNIQUE constraint on slug is enforced
    by the storage engine; NOT NULL fields are always supplied. -/
def insertBusinessRaw (db : DB) (slug name : String) : Except SqlError DB :=
  if db.businesses.any (fun b => b.slug = slug) then .error .uniqueViolation
  else .ok { db with
      businesses := db.businesses ++ [⟨db.nextBusinessId, slug, name, db.now⟩]
      nextBusinessId := db.nextBusinessId + 1 }

/-- Raw INSERT INTO reviews: the CHECK (rating BETWEEN 1 AND 5) is always
    enforced; the declared FOREIGN KEY is checked only when the connection
    has foreign-key enforcement on. `seen` defaults to 0, `created_at`
    defaults to the current time. -/
def insertReviewRaw (fkOn : Bool) (db : DB) (business_id : Nat) (rating : Int)
    (comment contact_email : Option String) (flagged : Nat) : Except SqlError DB :=
  if ¬ (1 ≤ rating ∧ rating ≤ 5) then .error .checkViolation
  else if fkOn && !(db.businesses.any (fun b => b.id = business_id)) then .error .fkViolation
  else .ok { db with
      reviews := db.reviews ++
        [⟨db.nextReviewId, business_id, rating, comment, contact_email, db.now, 0, flagged⟩]
      nextReviewId := db.nextReviewId + 1 }

/-- init_db (app/db.py lines 15-49): table creation is schema-only in the
    embedding; the demo seed is INSERT OR IGNORE keyed on the unique slug. -/
def init_db (db : DB) : DB :=
  if db.businesses.any (fun b => b.slug = "demo") then db
  else { db with
      businesses := db.businesses ++ [⟨db.nextBusinessId, "demo", "Demo Shop", db.now⟩]
      nextBusinessId := db.nextBusinessId + 1 }

/-- get_business_by_slug (app/main.py lines 52-58): SELECT ... WHERE
    slug = ? with fetchone, i.e. the first matching row in rowid order. -/
def get_business_by_slug (db : DB) (slug : String) : Option Business :=
  db.businesses.find? (fun b => b.slug = slug)

/-- get_or_create_business (app/main.py lines 61-74). There is no
    exception handler: a storage rejection of the INSERT propagates. The
    row returned after the INSERT is re-fetched by slug, as in the code. -/
def get_or_create_business (db : DB) (slug : String) :
    Except SqlError (DB × Option Business) :=
  match get_business_by_slug db slug with
  | some row => .ok (db, some row)
  | none =>
    match insertBusinessRaw db slug (deriveName slug) with
    | .error e => .error e
    | .ok db1 => .ok (db1, get_business_by_slug db1 slug)

/-- get_or_create_business with a concurrent request interleaved between
    the lookup (line 62) and the INSERT (line 69): the rival request
    commits the same slug first, then this request resumes at its INSERT
    statement and continues exactly as the code does. -/
def get_or_create_business_raced (db : DB) (slug rivalName : String) :
    Except SqlError (DB × Option Business) :=
  match get_business_by_slug db slug with
  | some row => .ok (db, some row)
  | none =>
    match insertBusinessRaw db slug rivalName with
    | .error e => .error e
    | .ok db1 =>
      match insertBusinessRaw db1 slug (deriveName slug) with
      | .error e => .error e
      | .ok db2 => .ok (db2, get_business_by_slug db2 slug)

/-- Fields of the ReviewCreate model (app/models.py lines 4-8), in
    declaration order. -/
inductive FieldName
  | business_slug
  | rating
  | comment
  | contact_email
deriving Repr, DecidableEq

/-- Modelled from the spec: syntactic e-mail validity. It stands in for
    the external pydantic `EmailStr` validator (the email-validator
    package is a dependency, not part of src): one `@` separating a
    non-empty local part from a non-empty domain that contains a dot and
    no spaces. -/
def isValidEmail (s : String) : Bool :=
  let cs := s.toList
  let localPart := cs.takeWhile (fun c => c ≠ '@')
  match cs.dropWhile (fun c => c ≠ '@') with
  | '@' :: domain =>
    decide (localPart ≠ []) && decide (domain ≠ []) &&
      !domain.contains '@' && domain.contains '.' && !domain.contains ' '
  | _ => false

/-- The ReviewCreate payload (app/models.py lines 4-8), before
    validation. -/
structure ReviewCreate where
  business_slug : String
  rating : Int
  comment : Option String
  contact_email : Option String
deriving Repr, DecidableEq

/-- Pydantic validation of ReviewCreate: business_slug 1-60 characters,
    rating an integer in [1,5], comment at most 1000 characters, a present
    contact_email syntactically valid. Reports the first offending field
    in declaration order. -/
def parseReviewCreate (p : ReviewCreate) : Except FieldName ReviewCreate :=
  if ¬ (1 ≤ p.business_slug.length ∧ p.business_slug.length ≤ 60) then .error .business_slug
  else if ¬ (1 ≤ p.rating ∧ p.rating ≤ 5) then .error .rating
  else if ¬ ((p.comment.map String.length).getD 0 ≤ 1000) then .error .comment
  else if ¬ (p.contact_email.all isValidEmail = true) then .error .contact_email
  else .ok p

/-- The JSON payload of the success response of create_review. -/
structure CreateReviewResponse where
  ok : Bool
  flagged : Bool
deriving Repr, DecidableEq

inductive ApiError
  | validation (field : FieldName)
  | sql (e : SqlError)
  | crash
deriving Repr, DecidableEq

/-- create_review (app/main.py lines 110-124), including the pydantic
    validation FastAPI performs when constructing the ReviewCreate
    payload. `flagged` is computed once, as `1 if rating <= 2 else 0`,
    stored verbatim, and echoed as `bool(flagged)` in the response. The
    impossible case of a missing row after get_or_create_business would be
    a `biz["id"]` TypeError, modelled as `.crash`. -/
def create_review (db : DB) (p0 : ReviewCreate) :
    Except ApiError (DB × CreateReviewResponse) :=
  match parseReviewCreate p0 with
  | .error f => .error (.validation f)
  | .ok p =>
    match get_or_create_business db p.business_slug with
    | .error e => .error (.sql e)
    | .ok (_, none) => .error .crash
    | .ok (db1, some biz) =>
      let flagged : Nat := if p.rating ≤ 2 then 1 else 0
      match insertReviewRaw connForeignKeysOn db1 biz.id p.rating
          p.comment p.contact_email flagged with
      | .error e => .error (.sql e)
      | .ok db2 => .ok (db2, ⟨true, flagged != 0⟩)

/-- submit_review_form (app/main.py lines 90-104): builds the
    ReviewCreate payload with `comment.strip() or None` and
    `contact_email.strip() or None`, then calls create_review. The
    redirect response carries no data, so the call result is kept. -/
def submit_review_form (db : DB) (slug : String) (rating : Int)
    (comment contact_email : String) : Except ApiError (DB × CreateReviewResponse) :=
  create_review db
    { business_slug := slug
      rating := rating
      comment := stripOrNone comment
      contact_email := stripOrNone contact_email }

/-- review_form (app/main.py lines 80-87): GET of the public form
    resolves the business, creating it if absent, then renders. -/
def review_form (db : DB) (slug : String) : Except SqlError DB :=
  match get_or_create_business db slug with
  | .error _e => .error _e
  | .ok (db1, _) => .ok db1

/-- mark_seen (app/main.py lines 205-212): UPDATE reviews SET seen = 1
    WHERE id = ?. -/
def mark_seen (db : DB) (review_id : Nat) : DB :=
  { db with
      reviews := db.reviews.map
        (fun r => if r.id = review_id then { r with seen := 1 } else r) }

/-- A review row joined with its business slug and name, as selected by
    the admin dashboard query. -/
structure JoinedReview where
  review : Review
  business_slug : String
  business_name : String
deriving Repr, DecidableEq

/-- The inner JOIN of reviews with businesses on b.id = r.business_id. -/
def joinReviews (db : DB) : List JoinedReview :=
  db.reviews.filterMap (fun r =>
    (db.businesses.find? (fun b => b.id = r.business_id)).map
      (fun b => ⟨r, b.slug, b.name⟩))

/-- ORDER BY r.created_at DESC as a relation: a row sorts before another
    when its created_at is at least as large. -/
def olderFirst (a b : JoinedReview) : Prop :=
  b.review.created_at ≤ a.review.created_at

instance : DecidableRel olderFirst :=
  fun a b => Nat.decLe b.review.created_at a.review.created_at

instance : IsTotal JoinedReview olderFirst :=
  ⟨fun a b => Nat.le_total b.review.created_at a.review.created_at⟩

instance : IsTrans JoinedReview olderFirst :=
  ⟨fun _a _b _c hab hbc => Nat.le_trans hbc hab⟩

/-- The admin dashboard review query (app/main.py lines 178-192):
    WHERE r.rating >= min_rating, AND b.slug = business when the filter
    string is non-empty (Python truthiness), ORDER BY created_at DESC,
    LIMIT 200. -/
def list_reviews (db : DB) (min_rating : Int) (business : String) :
    List JoinedReview :=
  (List.insertionSort olderFirst ((joinReviews db).filter (fun jr =>
    decide (min_rating ≤ jr.review.rating) &&
      (business == "" || jr.business_slug == business)))).take 200

/-- JSON values carried in the signed session payload. -/
inductive JsonVal
  | bool (b : Bool)
  | str (s : String)
  | num (n : Int)
  | null
deriving Repr, DecidableEq

/-- The decoded claim object: a JSON dictionary with string keys. -/
abbrev Claims := List (String × JsonVal)

/-- Python `dict.get`: the value of the first matching key, else None. -/
def dictGet (d : Claims) (k : String) : Option JsonVal :=
  (d.find? (fun p => p.1 = k)).map (fun p => p.2)

def encodeJsonVal : JsonVal → List Nat
  | .bool b => [0, if b then 1 else 0]
  | .str s => 1 :: s.length :: s.toList.map Char.toNat
  | .num n => [2, n.natAbs, if n < 0 then 1 else 0]
  | .null => [3]

def encodeClaims (d : Claims) : List Nat :=
  d.foldr (fun p acc =>
    (p.1.length :: p.1.toList.map Char.toNat) ++ encodeJsonVal p.2 ++ acc) []

/-- Model of the itsdangerous URLSafeSerializer MAC over a payload: a
    deterministic keyed digest of the secret and the serialized claims.
    Its only property used below is that a token verifies exactly when its
    stored digest equals the digest recomputed under the current secret. -/
def macOf (secret : String) (payload : Claims) : Nat :=
  ((secret.toList.map Char.toNat) ++ (0 :: encodeClaims payload)).foldl
    (fun h n => (h * 31 + n + 1) % 1000000007) 5381

/-- A serialized token: the claims it carries plus the signature computed
    when it was minted. A bit-flipped, truncated or foreign-secret token
    is one whose mac does not match the current secret and payload. -/
structure SignedToken where
  payload : Claims
  mac : Nat
deriving Repr, DecidableEq

/-- serializer.dumps on admin login (app/main.py line 149): signs the
    single claim `admin: true` under the current secret. -/
def issue_token (secret : String) : SignedToken :=
  ⟨[("admin", .bool true)], macOf secret [("admin", .bool true)]⟩

/-- serializer.loads: the payload when the signature verifies under the
    current secret, else BadSignature (none). -/
def loadsToken (secret : String) (t : SignedToken) : Option Claims :=
  if t.mac = macOf secret t.payload then some t.payload else none

/-- The two authentication outcomes: require_admin either returns (the
    request proceeds) or answers 401 Not authenticated. -/
inductive AuthOutcome
  | authenticated
  | unauthorized
deriving Repr, DecidableEq

/-- require_admin (app/main.py lines 39-49): missing cookie, bad
    signature, or a decoded claim whose `admin` is anything but True all
    end in the same 401. -/
def require_admin (secret : String) (cookie : Option SignedToken) : AuthOutcome :=
  match cookie with
  | none => .unauthorized
  | some tok =>
    match loadsToken secret tok with
    | some data =>
      if dictGet data "admin" = some (.bool true) then .authenticated
      else .unauthorized
    | none => .unauthorized

/-- The process environment as seen by os.environ.get. -/
abbrev Env := List (String × String)

def envGet (env : Env) (k dflt : String) : String :=
  ((env.find? (fun p => p.1 = k)).map (fun p => p.2)).getD dflt

/-- app/main.py line 18: `os.environ.get("ADMIN_PASSWORD", "")`. -/
def ADMIN_PASSWORD (env : Env) : String :=
  envGet env "ADMIN_PASSWORD" ""

/-- app/main.py line 19: `os.environ.get("SESSION_SECRET",
    "dev-secret-change-this")`. -/
def SECRET (env : Env) : String :=
  envGet env "SESSION_SECRET" "dev-secret-change-this"

/-- Outcome of POST /admin/login: the login page with an error message,
    or a redirect that sets the session cookie to a freshly issued token. -/
inductive LoginOutcome
  | errorPage (msg : String)
  | redirectWithToken (t : SignedToken)
deriving Repr, DecidableEq

/-- admin_login (app/main.py lines 135-152): an empty (unset) admin
    password fails closed; a wrong password is rejected; otherwise a token
    is issued under the configured-or-default secret. -/
def admin_login (env : Env) (password : String) : LoginOutcome :=
  if ADMIN_PASSWORD env = "" then .errorPage "Server missing ADMIN_PASSWORD env var"
  else if password ≠ ADMIN_PASSWORD env then .errorPage "Wrong password"
  else .redirectWithToken (issue_token (SECRET env))

/-- Storage states reachable from a fresh deployment: startup runs
    init_db, then any sequence of the public form GET (whose URL path
    segment is a non-empty, otherwise arbitrary string), the JSON API,
    the form POST, and the admin mark-seen action. -/
inductive Reachable : DB → Prop
  | startup : Reachable (init_db emptyDB)
  | form {db db' : DB} {slug : String} :
      Reachable db → slug ≠ "" → review_form db slug = .ok db' → Reachable db'
  | api {db db' : DB} {p : ReviewCreate} {res : CreateReviewResponse} :
      Reachable db → create_review db p = .ok (db', res) → Reachable db'
  | formPost {db db' : DB} {slug : String} {rating : Int}
      {comment contact_email : String} {res : CreateReviewResponse} :
      Reachable db → slug ≠ "" →
      submit_review_form db slug rating comment contact_email = .ok (db', res) →
      Reachable db'
  | seen {db : DB} (review_id : Nat) :
      Reachable db → Reachable (mark_seen db review_id)

/-- The validity condition pydantic enforces on ReviewCreate, stated
    field by field: slug length in [1,60], rating in [1,5], comment at
    most 1000 characters, a present e-mail syntactically valid. -/
def ValidPayload (p : ReviewCreate) : Prop :=
  (1 ≤ p.business_slug.length ∧ p.business_slug.length ≤ 60) ∧
  (1 ≤ p.rating ∧ p.rating ≤ 5) ∧
  ((p.comment.map String.length).getD 0 ≤ 1000) ∧
  (p.contact_email.all isValidEmail = true)

instance (p : ReviewCreate) : Decidable (ValidPayload p) := by
  unfold ValidPayload; infer_instance

/-- Which constraint a reported validation field actually violates. -/
def OffendsField (p : ReviewCreate) : FieldName → Prop
  | .business_slug => ¬ (1 ≤ p.business_slug.length ∧ p.business_slug.length ≤ 60)
  | .rating => ¬ (1 ≤ p.rating ∧ p.rating ≤ 5)
  | .comment => ¬ ((p.comment.map String.length).getD 0 ≤ 1000)
  | .contact_email => ¬ (p.contact_email.all isValidEmail = true)

/-- The freshly initialized store: the seeded demo business only. -/
def dbSeed : DB := init_db emptyDB

/-- Store state after one low-rating review on the demo business. -/
def dbAfterLowReview : DB :=
  { businesses := [⟨1, "demo", "Demo Shop", 0⟩]
    reviews := [⟨1, 1, 1, none, none, 0, 0, 1⟩]
    nextBusinessId := 2
    nextReviewId := 2
    now := 0 }

/-- A store with two reviews at distinct times, for dashboard checks. -/
def dbTwoReviews : DB :=
  { businesses := [⟨1, "demo", "Demo Shop", 0⟩]
    reviews := [⟨1, 1, 5, none, none, 3, 0, 0⟩, ⟨2, 1, 1, none, none, 7, 0, 1⟩]
    nextBusinessId := 2
    nextReviewId := 3
    now := 8 }

/-- Store state after a form submission with a padded comment and an
    all-whitespace contact e-mail on the demo business. -/
def dbGreat : DB :=
  { businesses := [⟨1, "demo", "Demo Shop", 0⟩]
    reviews := [⟨1, 1, 5, some "Great!", none, 0, 0, 0⟩]
    nextBusinessId := 2
    nextReviewId := 2
    now := 0 }

/-- A 61-character URL slug, one character beyond the documented bound. -/
def longSlug : String :=
  "aaaaaaaaaaaaaaaaaaaaaaaaaaaaaaaaaaaaaaaaaaaaaaaaaaaaaaaaaaaaa"

/-- Store state after GET /r/ on the 61-character slug. -/
def dbLong : DB :=
  { businesses := [⟨1, "demo", "Demo Shop", 0⟩, ⟨2, longSlug, deriveName longSlug, 0⟩]
    reviews := []
    nextBusinessId := 3
    nextReviewId := 1
    now := 0 }

theorem parseReviewCreate_ok_iff (p q : ReviewCreate) :
    parseReviewCreate p = Except.ok q ↔ q = p ∧ ValidPayload p := by
  unfold parseReviewCreate ValidPayload
  split_ifs with h1 h2 h3 h4
  · constructor
    · intro h
      injection h with h
      exact ⟨h.symm, h1, h2, h3, h4⟩
    · intro hh
      rw [hh.1]
  · exact iff_of_false (fun h => h) (fun hh => h4 hh.2.2.2.2)
  · exact iff_of_false (fun h => h) (fun hh => h3 hh.2.2.2.1)
  · exact iff_of_false (fun h => h) (fun hh => h2 hh.2.2.1)
  · exact iff_of_false (fun h => h) (fun hh => h1 hh.2.1)

theorem parseReviewCreate_error_offends (p : ReviewCreate) (f : FieldName)
    (h : parseReviewCreate p = Except.error f) : OffendsField p f := by
  unfold parseReviewCreate at h
  split_ifs at h with h1 h2 h3 h4
  · injection h with h; subst h; exact h4
  · injection h with h; subst h; exact h3
  · injection h with h; subst h; exact h2
  · injection h with h; subst h; exact h1

theorem parseReviewCreate_error_of_invalid (p : ReviewCreate)
    (hv : ¬ ValidPayload p) : ∃ f, parseReviewCreate p = Except.error f := by
  cases hp : parseReviewCreate p with
  | error f => exact ⟨f, rfl⟩
  | ok q => exact absurd ((parseReviewCreate_ok_iff p q).mp hp).2 hv

theorem insertBusinessRaw_ok_iff (db : DB) (slug name : String) (db' : DB) :
    insertBusinessRaw db slug name = Except.ok db' ↔
      ((∀ b ∈ db.businesses, b.slug ≠ slug) ∧
        db' = { db with
          businesses := db.businesses ++ [⟨db.nextBusinessId, slug, name, db.now⟩]
          nextBusinessId := db.nextBusinessId + 1 }) := by
  unfold insertBusinessRaw
  split_ifs with h
  · rw [List.any_eq_true] at h
    obtain ⟨b, hb, hs⟩ := h
    exact iff_of_false (fun hh => by cases hh)
      (fun hh => hh.1 b hb (by simpa using hs))
  · constructor
    · intro hh
      injection hh with hh
      refine ⟨fun b hb hs => ?_, hh.symm⟩
      exact h (List.any_eq_true.mpr ⟨b, hb, by simpa using hs⟩)
    · intro hh
      rw [hh.2]

theorem get_or_create_found (db : DB) (slug : String) (row : Business)
    (h : get_business_by_slug db slug = some row) :
    get_or_create_business db slug = Except.ok (db, some row) := by
  unfold get_or_create_business
  rw [h]

theorem get_or_create_absent (db : DB) (slug : String)
    (h : get_business_by_slug db slug = none) :
    get_or_create_business db slug =
      Except.ok
        ({ db with
            businesses := db.businesses ++ [⟨db.nextBusinessId, slug, deriveName slug, db.now⟩]
            nextBusinessId := db.nextBusinessId + 1 },
          some ⟨db.nextBusinessId, slug, deriveName slug, db.now⟩) := by
  have hfresh : ∀ b ∈ db.businesses, b.slug ≠ slug := by
    intro b hb
    have := List.find?_eq_none.mp h b hb
    simpa using this
  have hins := (insertBusinessRaw_ok_iff db slug (deriveName slug) _).mpr ⟨hfresh, rfl⟩
  have h' := h
  unfold get_business_by_slug at h'
  simp [get_or_create_business, h, hins, get_business_by_slug, List.find?_append, h',
    List.find?]

theorem get_or_create_ok_same (db : DB) (slug : String) (db1 : DB) (ob : Option Business)
    (h : get_or_create_business db slug = Except.ok (db1, ob)) :
    db1.reviews = db.reviews ∧ db1.nextReviewId = db.nextReviewId ∧ db1.now = db.now := by
  cases hf : get_business_by_slug db slug with
  | some row =>
    rw [get_or_create_found db slug row hf] at h
    injection h with h
    rw [(Prod.mk.injEq _ _ _ _).mp h |>.1.symm]
    exact ⟨rfl, rfl, rfl⟩
  | none =>
    rw [get_or_create_absent db slug hf] at h
    injection h with h
    rw [(Prod.mk.injEq _ _ _ _).mp h |>.1.symm]
    exact ⟨rfl, rfl, rfl⟩

theorem get_or_create_total (db : DB) (slug : String) :
    ∃ db1 b, get_or_create_business db slug = Except.ok (db1, some b) ∧ b.slug = slug := by
  cases hf : get_business_by_slug db slug with
  | some row =>
    refine ⟨db, row, get_or_create_found db slug row hf, ?_⟩
    have := List.find?_some hf
    simpa using this
  | none =>
    exact ⟨_, _, get_or_create_absent db slug hf, rfl⟩

theorem flagged_bool_eq (r : Int) :
    ((if r ≤ 2 then (1 : Nat) else 0) != 0) = decide (r ≤ 2) := by
  by_cases hc : r ≤ 2 <;> simp [hc]

theorem create_review_ok_spec (db : DB) (p : ReviewCreate) (db' : DB)
    (res : CreateReviewResponse) (h : create_review db p = Except.ok (db', res)) :
    ValidPayload p ∧
    ∃ db1 biz, get_or_create_business db p.business_slug = Except.ok (db1, some biz) ∧
      db' = { db1 with
        reviews := db1.reviews ++
          [⟨db1.nextReviewId, biz.id, p.rating, p.comment, p.contact_email, db1.now, 0,
            if p.rating ≤ 2 then 1 else 0⟩]
        nextReviewId := db1.nextReviewId + 1 } ∧
      res = ⟨true, decide (p.rating ≤ 2)⟩ := by
  cases hp : parseReviewCreate p with
  | error f => simp [create_review, hp] at h
  | ok q =>
    obtain ⟨hq, hv⟩ := (parseReviewCreate_ok_iff p q).mp hp
    have hp' : parseReviewCreate p = Except.ok p := by rw [hp, hq]
    refine ⟨hv, ?_⟩
    obtain ⟨db1, biz, hg, _⟩ := get_or_create_total db p.business_slug
    have hins : insertReviewRaw connForeignKeysOn db1 biz.id p.rating p.comment
        p.contact_email (if p.rating ≤ 2 then 1 else 0) =
        Except.ok { db1 with
          reviews := db1.reviews ++
            [⟨db1.nextReviewId, biz.id, p.rating, p.comment, p.contact_email, db1.now, 0,
              if p.rating ≤ 2 then 1 else 0⟩]
          nextReviewId := db1.nextReviewId + 1 } := by
      unfold insertReviewRaw
      rw [if_neg (not_not_intro hv.2.1)]
      simp [connForeignKeysOn]
    refine ⟨db1, biz, hg, ?_⟩
    simp only [create_review, hp', hg, hins, flagged_bool_eq] at h
    simp only [Except.ok.injEq, Prod.mk.injEq] at h
    exact ⟨h.1.symm, h.2.symm⟩

theorem create_review_ok_of_valid (db : DB) (p : ReviewCreate) (hv : ValidPayload p) :
    ∃ db' res, create_review db p = Except.ok (db', res) := by
  obtain ⟨db1, biz, hg, _⟩ := get_or_create_total db p.business_slug
  have hins : insertReviewRaw connForeignKeysOn db1 biz.id p.rating p.comment
      p.contact_email (if p.rating ≤ 2 then 1 else 0) =
      Except.ok { db1 with
        reviews := db1.reviews ++
          [⟨db1.nextReviewId, biz.id, p.rating, p.comment, p.contact_email, db1.now, 0,
            if p.rating ≤ 2 then 1 else 0⟩]
        nextReviewId := db1.nextReviewId + 1 } := by
    unfold insertReviewRaw
    rw [if_neg (not_not_intro hv.2.1)]
    simp [connForeignKeysOn]
  refine ⟨{ db1 with
      reviews := db1.reviews ++
        [⟨db1.nextReviewId, biz.id, p.rating, p.comment, p.contact_email, db1.now, 0,
          if p.rating ≤ 2 then 1 else 0⟩]
      nextReviewId := db1.nextReviewId + 1 },
    ⟨true, (if p.rating ≤ 2 then (1 : Nat) else 0) != 0⟩, ?_⟩
  simp only [create_review, (parseReviewCreate_ok_iff p p).mpr ⟨rfl, hv⟩, hg, hins]

theorem create_review_error_validation (db : DB) (p : ReviewCreate)
    (hv : ¬ ValidPayload p) :
    ∃ f, create_review db p = Except.error (.validation f) ∧ OffendsField p f := by
  obtain ⟨f, hf⟩ := parseReviewCreate_error_of_invalid p hv
  exact ⟨f, by simp [create_review, hf], parseReviewCreate_error_offends p f hf⟩

theorem create_review_validation_of_error (db : DB) (p : ReviewCreate) (f : FieldName)
    (h : create_review db p = Except.error (.validation f)) :
    parseReviewCreate p = Except.error f ∧ OffendsField p f := by
  cases hp : parseReviewCreate p with
  | error g =>
    have : g = f := by simp [create_review, hp] at h; exact h
    subst this
    exact ⟨rfl, parseReviewCreate_error_offends p _ hp⟩
  | ok q =>
    have hv := ((parseReviewCreate_ok_iff p q).mp hp).2
    obtain ⟨db', res, hok⟩ := create_review_ok_of_valid db p hv
    rw [hok] at h
    exact absurd h (by simp)

theorem mark_seen_preserves (db : DB) (review_id : Nat) :
    (mark_seen db review_id).businesses = db.businesses ∧
    (mark_seen db review_id).reviews.map (fun r => (r.id, r.flagged)) =
      db.reviews.map (fun r => (r.id, r.flagged)) := by
  refine ⟨rfl, ?_⟩
  unfold mark_seen
  rw [List.map_map]
  apply List.map_congr_left
  intro r _
  by_cases hr : r.id = review_id <;> simp [hr, Function.comp]

theorem stripOrNone_spec (s : String) :
    stripOrNone s ≠ some "" ∧
    (pyStrip s = "" → stripOrNone s = none) ∧
    (pyStrip s ≠ "" → stripOrNone s = some (pyStrip s)) := by
  unfold stripOrNone
  by_cases hc : pyStrip s = "" <;> simp [hc]

/-- C1: for every review accepted by create_review (rating necessarily in
    [1,5]), the stored flagged field is computed exactly once at insertion
    as rating <= 2, the response reports the same boolean as `flagged`,
    and mark_seen — the only operation that ever updates review rows —
    leaves the flagged value of every review unchanged. -/
theorem c1_flagged_computed_once (db : DB) (p : ReviewCreate) (db' : DB)
    (res : CreateReviewResponse) (db2 : DB) (review_id : Nat)
    (h : create_review db p = Except.ok (db', res)) :
    (1 ≤ p.rating ∧ p.rating ≤ 5) ∧
    res.flagged = decide (p.rating ≤ 2) ∧
    (∃ nr : Review, db'.reviews = db.reviews ++ [nr] ∧
      nr.flagged = (if p.rating ≤ 2 then 1 else 0) ∧ nr.rating = p.rating) ∧
    (mark_seen db2 review_id).reviews.map (fun r => (r.id, r.flagged)) =
      db2.reviews.map (fun r => (r.id, r.flagged)) := by
  obtain ⟨hv, db1, biz, hg, hdb', hres⟩ := create_review_ok_spec db p db' res h
  obtain ⟨hrev, _, _⟩ := get_or_create_ok_same db p.business_slug db1 _ hg
  refine ⟨hv.2.1, by rw [hres],
    ⟨⟨db1.nextReviewId, biz.id, p.rating, p.comment, p.contact_email, db1.now, 0,
        if p.rating ≤ 2 then 1 else 0⟩, ?_, rfl, rfl⟩,
    (mark_seen_preserves db2 review_id).2⟩
  rw [hdb']
  simp [hrev]

/-- C1 witness: a rating-1 review on the demo business is stored with
    flagged = 1 and reported flagged = true. -/
theorem c1_witness :
    (1 ≤ (1 : Int) ∧ (1 : Int) ≤ 5) ∧
    (⟨true, true⟩ : CreateReviewResponse).flagged = decide ((1 : Int) ≤ 2) ∧
    (∃ nr : Review, dbAfterLowReview.reviews = dbSeed.reviews ++ [nr] ∧
      nr.flagged = (if (1 : Int) ≤ 2 then 1 else 0) ∧ nr.rating = (1 : Int)) ∧
    (mark_seen dbAfterLowReview 1).reviews.map (fun r => (r.id, r.flagged)) =
      dbAfterLowReview.reviews.map (fun r => (r.id, r.flagged)) :=
  c1_flagged_computed_once dbSeed ⟨"demo", 1, none, none⟩ dbAfterLowReview
    ⟨true, true⟩ dbAfterLowReview 1 (by decide)

/-- C2: require_admin grants access exactly when a cookie is present,
    its signature verifies under the current secret, and the decoded
    claim maps "admin" to the JSON boolean true; every other token —
    absent, tampered (mac mismatch), foreign-secret, or with the claim
    missing or not true — is denied, the outcome is always one of the two
    states (no exception escapes), and a token issued under the current
    secret verifies. -/
theorem c2_verify_token (secret : String) (cookie : Option SignedToken) :
    (require_admin secret cookie = .authenticated ∨
      require_admin secret cookie = .unauthorized) ∧
    (require_admin secret cookie = .authenticated ↔
      ∃ tok, cookie = some tok ∧ tok.mac = macOf secret tok.payload ∧
        dictGet tok.payload "admin" = some (.bool true)) ∧
    require_admin secret (some (issue_token secret)) = .authenticated := by
  refine ⟨?_, ?_, ?_⟩
  · cases hc : require_admin secret cookie with
    | authenticated => exact Or.inl rfl
    | unauthorized => exact Or.inr rfl
  · cases cookie with
    | none => simp [require_admin]
    | some tok =>
      simp only [require_admin, loadsToken]
      by_cases hm : tok.mac = macOf secret tok.payload
      · rw [if_pos hm]
        by_cases ha : dictGet tok.payload "admin" = some (.bool true)
        · simp [ha, hm]
        · simp [ha, hm]
      · rw [if_neg hm]
        simp [hm]
  · simp [require_admin, loadsToken, issue_token, dictGet, List.find?]

/-- C2 witness: with no cookie the outcome is a denial, the iff holds
    vacuously, and the freshly issued token authenticates. -/
theorem c2_witness :
    (require_admin "server-key" none = .authenticated ∨
      require_admin "server-key" none = .unauthorized) ∧
    (require_admin "server-key" none = .authenticated ↔
      ∃ tok, (none : Option SignedToken) = some tok ∧
        tok.mac = macOf "server-key" tok.payload ∧
        dictGet tok.payload "admin" = some (.bool true)) ∧
    require_admin "server-key" (some (issue_token "server-key")) = .authenticated :=
  c2_verify_token "server-key" none

/-- C3 as amended: an unset (hence empty) admin password fails closed —
    no login attempt ever yields a token; but an unset signing secret
    does not prevent login: with a configured password, login proceeds
    and signs the session token with the built-in default secret
    "dev-secret-change-this". -/
theorem c3_login_gating (env : Env) (password : String) :
    (ADMIN_PASSWORD env = "" →
      ∀ t, admin_login env password ≠ LoginOutcome.redirectWithToken t) ∧
    (ADMIN_PASSWORD env ≠ "" → password = ADMIN_PASSWORD env →
      admin_login env password = .redirectWithToken (issue_token (SECRET env))) ∧
    (env.find? (fun kv => kv.1 = "SESSION_SECRET") = none →
      SECRET env = "dev-secret-change-this") := by
  refine ⟨?_, ?_, ?_⟩
  · intro h t
    unfold admin_login
    rw [if_pos h]
    simp
  · intro h hp
    unfold admin_login
    rw [if_neg h, if_neg (not_not_intro hp)]
  · intro h
    unfold SECRET envGet
    rw [h]
    rfl

/-- C3 counterexample: with ADMIN_PASSWORD configured but SESSION_SECRET
    absent from the environment, a login attempt succeeds and a token is
    issued under the known default secret — the claim that no token is
    ever issued when the signing secret is not configured is false. -/
theorem c3_cex :
    ([("ADMIN_PASSWORD", "pw")] : Env).find? (fun kv => kv.1 = "SESSION_SECRET") = none ∧
    admin_login [("ADMIN_PASSWORD", "pw")] "pw" =
      LoginOutcome.redirectWithToken (issue_token "dev-secret-change-this") := by
  decide

/-- C3 witness: empty environment rejects every password; a configured
    password logs in with the default secret. -/
theorem c3_witness :
    (∀ t, admin_login [] "guess" ≠ LoginOutcome.redirectWithToken t) ∧
    admin_login [("ADMIN_PASSWORD", "hunter2")] "hunter2" =
      LoginOutcome.redirectWithToken (issue_token (SECRET [("ADMIN_PASSWORD", "hunter2")])) ∧
    SECRET [("ADMIN_PASSWORD", "hunter2")] = "dev-secret-change-this" :=
  ⟨(c3_login_gating [] "guess").1 (by decide),
   (c3_login_gating [("ADMIN_PASSWORD", "hunter2")] "hunter2").2.1 (by decide) rfl,
   (c3_login_gating [("ADMIN_PASSWORD", "hunter2")] "hunter2").2.2 (by decide)⟩

theorem offends_not_valid (p : ReviewCreate) (f : FieldName)
    (ho : OffendsField p f) : ¬ ValidPayload p := by
  intro hv
  cases f
  · exact ho hv.1
  · exact ho hv.2.1
  · exact ho hv.2.2.1
  · exact ho hv.2.2.2

theorem create_review_no_other_error (db : DB) (p : ReviewCreate) :
    (∀ e, create_review db p ≠ Except.error (.sql e)) ∧
    create_review db p ≠ Except.error .crash := by
  by_cases hv : ValidPayload p
  · obtain ⟨db', res, hok⟩ := create_review_ok_of_valid db p hv
    rw [hok]
    refine ⟨fun e he => ?_, fun he => ?_⟩
    · simp at he
    · simp at he
  · obtain ⟨f, hf, _⟩ := create_review_error_validation db p hv
    rw [hf]
    refine ⟨fun e he => ?_, fun he => ?_⟩
    · simp at he
    · simp at he

/-- C4 as amended: create_review fails with a ValidationError naming an
    offending field — and no state change happens, the error being the
    only output — exactly when the payload violates one of the pydantic
    constraints: rating outside [1,5], comment over 1000 characters, a
    present contact_email not syntactically valid, or (the condition the
    original claim omits) business_slug not 1-60 characters; on any valid
    payload it succeeds, and it never fails any other way. -/
theorem c4_validation_exact (db : DB) (p : ReviewCreate) :
    (ValidPayload p → ∃ db' res, create_review db p = Except.ok (db', res)) ∧
    (¬ ValidPayload p →
      ∃ f, create_review db p = Except.error (.validation f) ∧ OffendsField p f) ∧
    (∀ f, create_review db p = Except.error (.validation f) →
      OffendsField p f ∧ ¬ ValidPayload p) ∧
    (∀ e, create_review db p ≠ Except.error (.sql e)) ∧
    create_review db p ≠ Except.error .crash := by
  refine ⟨create_review_ok_of_valid db p, create_review_error_validation db p,
    fun f hf => ?_, (create_review_no_other_error db p).1,
    (create_review_no_other_error db p).2⟩
  have ho := (create_review_validation_of_error db p f hf).2
  exact ⟨ho, offends_not_valid p f ho⟩

/-- C4 counterexample: a payload whose rating is 3, with no comment and
    no contact_email, satisfies every condition the claim lists for
    success, yet create_review rejects it with a ValidationError on
    business_slug (the empty slug violates the 1-60 length constraint the
    claim does not mention). -/
theorem c4_cex :
    (1 ≤ (3 : Int) ∧ (3 : Int) ≤ 5) ∧
    ((⟨"", 3, none, none⟩ : ReviewCreate).comment = none ∧
      (⟨"", 3, none, none⟩ : ReviewCreate).contact_email = none) ∧
    create_review dbSeed ⟨"", 3, none, none⟩ =
      Except.error (.validation .business_slug) := by
  decide

/-- C4 witness: an out-of-range rating is rejected naming the rating
    field, and a fully valid payload goes through. -/
theorem c4_witness :
    (ValidPayload ⟨"demo", 6, none, none⟩ →
      ∃ db' res, create_review dbSeed ⟨"demo", 6, none, none⟩ = Except.ok (db', res)) ∧
    (¬ ValidPayload ⟨"demo", 6, none, none⟩ →
      ∃ f, create_review dbSeed ⟨"demo", 6, none, none⟩ =
          Except.error (.validation f) ∧ OffendsField ⟨"demo", 6, none, none⟩ f) ∧
    (∀ f, create_review dbSeed ⟨"demo", 6, none, none⟩ = Except.error (.validation f) →
      OffendsField ⟨"demo", 6, none, none⟩ f ∧ ¬ ValidPayload ⟨"demo", 6, none, none⟩) ∧
    (∀ e, create_review dbSeed ⟨"demo", 6, none, none⟩ ≠ Except.error (.sql e)) ∧
    create_review dbSeed ⟨"demo", 6, none, none⟩ ≠ Except.error .crash :=
  c4_validation_exact dbSeed ⟨"demo", 6, none, none⟩

/-- C5: the storage layer hard-enforces the rating range CHECK even on a
    direct insert bypassing the data-access API, but the declared foreign
    key is not enforced: sqlite3 connections leave foreign-key
    enforcement off unless a PRAGMA enables it, get_conn never does, so a
    direct insert whose business_id (999) references no business row is
    accepted by storage, contradicting the claim. -/
theorem c5_storage_constraints :
    insertReviewRaw connForeignKeysOn dbSeed 1 6 none none 0 =
      Except.error SqlError.checkViolation ∧
    insertReviewRaw connForeignKeysOn dbSeed 1 0 none none 0 =
      Except.error SqlError.checkViolation ∧
    (∀ b ∈ dbSeed.businesses, b.id ≠ 999) ∧
    insertReviewRaw connForeignKeysOn dbSeed 999 3 none none 0 =
      Except.ok
        { businesses := [⟨1, "demo", "Demo Shop", 0⟩]
          reviews := [⟨1, 999, 3, none, none, 0, 0, 0⟩]
          nextBusinessId := 2
          nextReviewId := 2
          now := 0 } := by
  decide

/-- C7 as amended: when the lookup misses and a rival request commits the
    same slug before the INSERT of this request, the unique-constraint
    rejection of the INSERT propagates out of get_or_create_business —
    there is no handler that re-fetches, so the Conflict is surfaced to
    the caller, not absorbed. -/
theorem c7_conflict_propagates (db : DB) (slug rivalName : String)
    (h : get_business_by_slug db slug = none) :
    get_or_create_business_raced db slug rivalName =
      Except.error SqlError.uniqueViolation := by
  have hfresh : ∀ b ∈ db.businesses, b.slug ≠ slug := by
    intro b hb
    simpa using List.find?_eq_none.mp h b hb
  have hrival := (insertBusinessRaw_ok_iff db slug rivalName _).mpr ⟨hfresh, rfl⟩
  have hsecond : insertBusinessRaw
      { db with
        businesses := db.businesses ++ [⟨db.nextBusinessId, slug, rivalName, db.now⟩]
        nextBusinessId := db.nextBusinessId + 1 } slug (deriveName slug) =
      Except.error SqlError.uniqueViolation := by
    unfold insertBusinessRaw
    have hany : ((db.businesses ++ [(⟨db.nextBusinessId, slug, rivalName, db.now⟩ : Business)]).any
        (fun b => b.slug = slug)) = true := by
      simp
    rw [if_pos hany]
  simp [get_or_create_business_raced, h, hrival, hsecond]

/-- C7 counterexample: on a fresh store, the raced get_or_create_business
    for an unseen slug ends in a surfaced uniqueViolation error instead
    of returning the now-existing row. -/
theorem c7_cex :
    get_or_create_business_raced dbSeed "cafe" "Rival Cafe" =
      Except.error SqlError.uniqueViolation := by
  decide

/-- C7 witness: the amended propagation statement at a concrete store. -/
theorem c7_witness :
    get_or_create_business_raced dbSeed "new-cafe" "Other Name" =
      Except.error SqlError.uniqueViolation :=
  c7_conflict_propagates dbSeed "new-cafe" "Other Name" (by decide)

/-- C6: for every stored state, the dashboard review query returns at
    most 200 rows, every returned row has rating >= min_rating and — when
    a non-empty slug filter is supplied — belongs to that business, and
    the rows are ordered by created_at descending. -/
theorem c6_list_reviews_bounds (db : DB) (min_rating : Int) (business : String) :
    (list_reviews db min_rating business).length ≤ 200 ∧
    (∀ jr ∈ list_reviews db min_rating business,
      min_rating ≤ jr.review.rating ∧ (business ≠ "" → jr.business_slug = business)) ∧
    List.Pairwise olderFirst (list_reviews db min_rating business) := by
  unfold list_reviews
  refine ⟨List.length_take_le _ _, ?_, ?_⟩
  · intro jr hjr
    have h1 := (List.take_sublist _ _).mem hjr
    have h2 := (List.perm_insertionSort olderFirst _).mem_iff.mp h1
    have h3 := (List.mem_filter.mp h2).2
    simp only [Bool.and_eq_true, decide_eq_true_eq, Bool.or_eq_true, beq_iff_eq] at h3
    refine ⟨h3.1, fun hb => ?_⟩
    rcases h3.2 with he | hs
    · exact absurd he hb
    · exact hs
  · exact List.Pairwise.sublist (List.take_sublist _ _)
      (List.sorted_insertionSort olderFirst _)

/-- C6 witness: the bounds at a concrete two-review store with the demo
    slug filter. -/
theorem c6_witness :
    (list_reviews dbTwoReviews 1 "demo").length ≤ 200 ∧
    (∀ jr ∈ list_reviews dbTwoReviews 1 "demo",
      (1 : Int) ≤ jr.review.rating ∧ ("demo" ≠ "" → jr.business_slug = "demo")) ∧
    List.Pairwise olderFirst (list_reviews dbTwoReviews 1 "demo") :=
  c6_list_reviews_bounds dbTwoReviews 1 "demo"

/-- C8: for a slug with no stored business, get_or_create_business
    inserts and returns a business named by the hyphen-to-space,
    title-cased transform of the slug; for a slug that already has a
    business it returns that record with the store unchanged. -/
theorem c8_get_or_create_name (db : DB) (slug : String) :
    (∀ row, get_business_by_slug db slug = some row →
      get_or_create_business db slug = Except.ok (db, some row)) ∧
    (get_business_by_slug db slug = none →
      get_or_create_business db slug = Except.ok
        ({ db with
            businesses := db.businesses ++
              [⟨db.nextBusinessId, slug, deriveName slug, db.now⟩]
            nextBusinessId := db.nextBusinessId + 1 },
          some ⟨db.nextBusinessId, slug, deriveName slug, db.now⟩)) :=
  ⟨fun row h => get_or_create_found db slug row h,
   fun h => get_or_create_absent db slug h⟩

/-- C8 witness: the slug new-cafe is created with the name New Cafe, and
    the already-present demo slug is returned without any insert. -/
theorem c8_witness :
    get_or_create_business dbSeed "new-cafe" = Except.ok
      ({ dbSeed with
          businesses := dbSeed.businesses ++
            [⟨dbSeed.nextBusinessId, "new-cafe", deriveName "new-cafe", dbSeed.now⟩]
          nextBusinessId := dbSeed.nextBusinessId + 1 },
        some ⟨dbSeed.nextBusinessId, "new-cafe", deriveName "new-cafe", dbSeed.now⟩) ∧
    deriveName "new-cafe" = "New Cafe" ∧
    get_or_create_business dbSeed "demo" =
      Except.ok (dbSeed, some ⟨1, "demo", "Demo Shop", 0⟩) :=
  ⟨(c8_get_or_create_name dbSeed "new-cafe").2 (by decide),
   by decide,
   (c8_get_or_create_name dbSeed "demo").1 ⟨1, "demo", "Demo Shop", 0⟩ (by decide)⟩

/-- C10: a form submission that is accepted stores the stripped comment
    and contact e-mail, storing null (never the empty string) when the
    stripped value is empty, and the stripped value itself otherwise. -/
theorem c10_form_blank_fields (db : DB) (slug : String) (rating : Int)
    (comment contact_email : String) (db' : DB) (res : CreateReviewResponse)
    (h : submit_review_form db slug rating comment contact_email = Except.ok (db', res)) :
    ∃ nr : Review, db'.reviews = db.reviews ++ [nr] ∧
      nr.comment = stripOrNone comment ∧
      nr.contact_email = stripOrNone contact_email ∧
      nr.comment ≠ some "" ∧ nr.contact_email ≠ some "" ∧
      (pyStrip comment = "" → nr.comment = none) ∧
      (pyStrip comment ≠ "" → nr.comment = some (pyStrip comment)) ∧
      (pyStrip contact_email = "" → nr.contact_email = none) ∧
      (pyStrip contact_email ≠ "" → nr.contact_email = some (pyStrip contact_email)) := by
  unfold submit_review_form at h
  obtain ⟨hv, db1, biz, hg, hdb', hres⟩ := create_review_ok_spec _ _ _ _ h
  obtain ⟨hrev, _, _⟩ := get_or_create_ok_same _ _ _ _ hg
  refine ⟨⟨db1.nextReviewId, biz.id, rating, stripOrNone comment, stripOrNone contact_email,
      db1.now, 0, if rating ≤ 2 then 1 else 0⟩, ?_, rfl, rfl,
    (stripOrNone_spec comment).1, (stripOrNone_spec contact_email).1,
    fun hc => (stripOrNone_spec comment).2.1 hc,
    fun hc => (stripOrNone_spec comment).2.2 hc,
    fun hc => (stripOrNone_spec contact_email).2.1 hc,
    fun hc => (stripOrNone_spec contact_email).2.2 hc⟩
  rw [hdb']
  simp [hrev]

/-- C10 witness: a padded comment is stored stripped and an
    all-whitespace e-mail is stored as null. -/
theorem c10_witness :
    ∃ nr : Review, dbGreat.reviews = dbSeed.reviews ++ [nr] ∧
      nr.comment = stripOrNone "  Great!  " ∧
      nr.contact_email = stripOrNone "   " ∧
      nr.comment ≠ some "" ∧ nr.contact_email ≠ some "" ∧
      (pyStrip "  Great!  " = "" → nr.comment = none) ∧
      (pyStrip "  Great!  " ≠ "" → nr.comment = some (pyStrip "  Great!  ")) ∧
      (pyStrip "   " = "" → nr.contact_email = none) ∧
      (pyStrip "   " ≠ "" → nr.contact_email = some (pyStrip "   ")) :=
  c10_form_blank_fields dbSeed "demo" 5 "  Great!  " "   " dbGreat ⟨true, false⟩ (by decide)

theorem valid_slug_ne_empty (p : ReviewCreate) (hv : ValidPayload p) :
    p.business_slug ≠ "" := by
  intro he
  have h1 := hv.1.1
  rw [he] at h1
  exact absurd h1 (by decide)

theorem get_or_create_preserves_unique (db : DB) (slug : String) (db1 : DB)
    (ob : Option Business) (hok : get_or_create_business db slug = Except.ok (db1, ob))
    (hne : slug ≠ "")
    (hpw : List.Pairwise (fun a b => a.slug ≠ b.slug) db.businesses)
    (hnn : ∀ b ∈ db.businesses, b.slug ≠ "") :
    List.Pairwise (fun a b => a.slug ≠ b.slug) db1.businesses ∧
    ∀ b ∈ db1.businesses, b.slug ≠ "" := by
  cases hf : get_business_by_slug db slug with
  | some row =>
    rw [get_or_create_found db slug row hf] at hok
    injection hok with hok
    have hdb : db = db1 := congrArg Prod.fst hok
    rw [← hdb]
    exact ⟨hpw, hnn⟩
  | none =>
    rw [get_or_create_absent db slug hf] at hok
    injection hok with hok
    have hdb : db1 = { db with
        businesses := db.businesses ++
          [⟨db.nextBusinessId, slug, deriveName slug, db.now⟩]
        nextBusinessId := db.nextBusinessId + 1 } :=
      (congrArg Prod.fst hok).symm
    have hfresh : ∀ b ∈ db.businesses, b.slug ≠ slug := by
      intro b hb
      simpa using List.find?_eq_none.mp hf b hb
    rw [hdb]
    constructor
    · rw [List.pairwise_append]
      refine ⟨hpw, List.pairwise_singleton _ _, ?_⟩
      intro a ha b hb
      rw [List.mem_singleton] at hb
      rw [hb]
      exact hfresh a ha
    · intro b hb
      rcases List.mem_append.mp hb with hmem | hmem
      · exact hnn b hmem
      · rw [List.mem_singleton] at hmem
        rw [hmem]
        exact hne

/-- C9 as amended: in every reachable storage state, business slugs are
    pairwise distinct (each slug maps to exactly one row, the UNIQUE
    constraint plus the lookup-then-insert flow preserve this) and every
    stored slug is non-empty; the 60-character upper bound of the claim
    is not maintained, because the public form URL path creates
    businesses from slugs of any length. -/
theorem c9_slug_unique (db : DB) (h : Reachable db) :
    List.Pairwise (fun a b => a.slug ≠ b.slug) db.businesses ∧
    ∀ b ∈ db.businesses, b.slug ≠ "" := by
  induction h with
  | startup =>
    refine ⟨?_, ?_⟩ <;> decide
  | form hr hne hok ih =>
    rename_i db0 db' slug
    cases hg : get_or_create_business db0 slug with
    | error e =>
      rw [show review_form db0 slug = Except.error e by
        unfold review_form; rw [hg]] at hok
      exact absurd hok (by simp)
    | ok pr =>
      obtain ⟨db1, ob⟩ := pr
      have hok' : db1 = db' := by
        unfold review_form at hok
        rw [hg] at hok
        simpa using hok
      rw [← hok']
      exact get_or_create_preserves_unique db0 slug db1 ob hg hne ih.1 ih.2
  | api hr hok ih =>
    rename_i db0 db' p res
    obtain ⟨hv, db1, biz, hg, hdb', _⟩ := create_review_ok_spec db0 p db' res hok
    have hb : db'.businesses = db1.businesses := by rw [hdb']
    rw [hb]
    exact get_or_create_preserves_unique db0 p.business_slug db1 _ hg
      (valid_slug_ne_empty p hv) ih.1 ih.2
  | formPost hr hne hok ih =>
    rename_i db0 db' slug rating comment contact_email res
    unfold submit_review_form at hok
    obtain ⟨hv, db1, biz, hg, hdb', _⟩ := create_review_ok_spec db0 _ db' res hok
    have hb : db'.businesses = db1.businesses := by rw [hdb']
    rw [hb]
    exact get_or_create_preserves_unique db0 _ db1 _ hg
      (valid_slug_ne_empty _ hv) ih.1 ih.2
  | seen review_id hr ih =>
    exact ⟨ih.1, ih.2⟩

/-- C9 counterexample: the state reached by starting up and then serving
    GET /r/ on a 61-character slug is reachable and stores a business
    whose slug is longer than 60 characters, refuting the 1-60 length
    part of the claim. -/
theorem c9_cex :
    Reachable dbLong ∧ ∃ b ∈ dbLong.businesses, 60 < b.slug.length :=
  ⟨@Reachable.form (init_db emptyDB) dbLong longSlug Reachable.startup
      (by decide) (by decide),
    by decide⟩

/-- C9 witness: the amended invariant at the freshly initialized state. -/
theorem c9_witness :
    List.Pairwise (fun a b => a.slug ≠ b.slug) (init_db emptyDB).businesses ∧
    ∀ b ∈ (init_db emptyDB).businesses, b.slug ≠ "" :=
  c9_slug_unique (init_db emptyDB) Reachable.startup
